import Mathlib

/-!
Shallow embedding of the mwm window-manager core (crates `mwm` and
`mwm_xcb`) used to check the natural-language specification against the
code.  Machine integers of the wire protocol are modelled as `Nat`/`Int`;
X window identifiers are raw `Nat` values where `0` is the protocol `NONE`
value; fallible operations return `Option`/`Except`.
-/

namespace Mwm

/-- Geometry rectangle, mirroring `Region` in `mwm_xcb/src/lib.rs`
(`x y : i32`, `w h : u32`). -/
structure Region where
  x : Int
  y : Int
  w : Nat
  h : Nat
deriving DecidableEq, Repr

/-- Screen point, mirroring `Point` in `mwm_xcb/src/lib.rs`. -/
structure Point where
  x : Int
  y : Int
deriving DecidableEq, Repr

namespace XWinId

/-- Mirrors `XWinId::from_raw_nullable` in `mwm_xcb/src/lib.rs`: the raw
`xcb_window_t` equal to `xcb::base::NONE` (that is, `0`) maps to `none`,
every other value is a valid id. -/
def fromRawNullable (raw : Nat) : Option Nat :=
  if raw = 0 then none else some raw

/-- Mirrors `XWinId::from_raw` in `mwm_xcb/src/lib.rs`: the `.expect(...)`
panic on the `NONE` id is modelled as `none`; a `none` result anywhere in
decoding aborts the whole process. -/
def fromRaw (raw : Nat) : Option Nat :=
  fromRawNullable raw

end XWinId

/-- Names of the nine atoms left uncommented in the `atoms!` invocation of
`mwm_xcb/src/atom.rs`; `Atom::ALL` iterates them in this order. -/
def atomNames : List String :=
  ["MANAGER", "UTF8_STRING", "WM_CLASS", "WM_PROTOCOLS", "WM_NAME",
   "_NET_ACTIVE_WINDOW", "_NET_WM_NAME", "_NET_WM_STATE",
   "_NET_WM_STATE_FULLSCREEN"]

/-- Protocol requests that `XConn::init` and `XConn::substructure_redirect`
(`mwm_xcb/src/xconn.rs`) can put on the wire during session bootstrap. -/
inductive BootRequest where
  | internAtom (name : String)
  | createCheckWindow
  | randrSelectInput
  | substructureRedirectAttrs
deriving DecidableEq, Repr

/-- Reply/check outcomes of the environment that `XConn::init` consults, one
field per fallible step of `mwm_xcb/src/xconn.rs` lines 52-115. -/
structure BootEnv where
  connectOk : Bool
  rootPresent : Bool
  extensionDataOk : Bool
  randrBaseSlotFree : Bool
  atomReplyOk : String → Bool
  createWindowCheckOk : Bool
  selectInputCheckOk : Bool

/-- Failure cases of `XConn::init`, in the order the code can hit them. -/
inductive InitError where
  | connect
  | noScreen
  | extensionData
  | randrBaseTaken
  | internAtom
  | createWindowCheck
  | selectInputCheck
deriving DecidableEq, Repr

/-- Requests that `XConn::init` fires before awaiting any reply
(`mwm_xcb/src/xconn.rs` lines 63-95): one intern-atom per `Atom::ALL`
entry, the check-window creation, and the randr select-input.  Nothing is
fired when connecting or obtaining the first screen already failed. -/
def initRequests (env : BootEnv) : List BootRequest :=
  if env.connectOk ∧ env.rootPresent then
    atomNames.map BootRequest.internAtom
      ++ [BootRequest.createCheckWindow, BootRequest.randrSelectInput]
  else []

/-- Result of `XConn::init` (`mwm_xcb/src/xconn.rs` lines 52-115): connect,
find the first screen, fetch randr extension data and store the base code,
collect the atom replies, then check the create-window and select-input
cookies; the first failing step aborts bootstrap. -/
def initResult (env : BootEnv) : Except InitError Unit :=
  if ¬env.connectOk then .error .connect
  else if ¬env.rootPresent then .error .noScreen
  else if ¬env.extensionDataOk then .error .extensionData
  else if ¬env.randrBaseSlotFree then .error .randrBaseTaken
  else if ¬(atomNames.all env.atomReplyOk) then .error .internAtom
  else if ¬env.createWindowCheckOk then .error .createWindowCheck
  else if ¬env.selectInputCheckOk then .error .selectInputCheck
  else .ok ()

/-- Body of `XConn::substructure_redirect` (`mwm_xcb/src/xconn.rs` lines
346-355): a change-window-attributes request on the root window asking for
property-change, substructure-redirect and substructure-notify.  The
function exists but has no caller anywhere in the crate; in particular
`XConn::init` and `FromWorld for XConn` never invoke it. -/
def substructureRedirectRequests : List BootRequest :=
  [BootRequest.substructureRedirectAttrs]

/-- Environment in which every reply and check succeeds. -/
def envAllOk : BootEnv :=
  { connectOk := true
    rootPresent := true
    extensionDataOk := true
    randrBaseSlotFree := true
    atomReplyOk := fun _ => true
    createWindowCheckOk := true
    selectInputCheckOk := true }

/-- Observable outcome of one run of the `flush_xcb` system
(`mwm_xcb/src/xcb_event_systems.rs` lines 41-46); `abortProcess` is in the
vocabulary so that fatality can be stated, `warned` records whether the
`warn!` line ran. -/
inductive FlushOutcome where
  | keepRunning (warned : Bool)
  | abortProcess
deriving DecidableEq, Repr

/-- Mirrors `flush_xcb`: on a failed flush it logs a warning and returns;
it never aborts the process. -/
def flushXcb (flushOk : Bool) : FlushOutcome :=
  if flushOk then .keepRunning false else .keepRunning true

/-- The bevy systems registered by `XcbPlugin::build`
(`mwm_xcb/src/plugin.rs` lines 56-84). -/
inductive SystemName where
  | waitForXcbEventsSys
  | processXcbEventsSys
  | spawnWindowsSys
  | despawnWindowsSys
  | mapUnmanagedWindowsSys
  | markMappedWindowsSys
  | markUnmappedWindowsSys
  | markPrefferedSizeWindowsSys
  | markSizeWindowsSys
  | processRequestMapSys
  | processRequestResizeSys
  | flushXcbSys
deriving DecidableEq, Repr

/-- Per-iteration stage order built by `XcbPlugin::build`: `CoreStage::First`
(wait then decode), `CoreStage::Update` (the seven lifecycle systems),
`CoreStage::PostUpdate` (the two reconciliation systems), `CoreStage::Last`
(the flush). -/
def iterationSchedule : List SystemName :=
  [.waitForXcbEventsSys, .processXcbEventsSys,
   .spawnWindowsSys, .despawnWindowsSys, .mapUnmanagedWindowsSys,
   .markMappedWindowsSys, .markUnmappedWindowsSys,
   .markPrefferedSizeWindowsSys, .markSizeWindowsSys,
   .processRequestMapSys, .processRequestResizeSys,
   .flushXcbSys]

/-- The event-tag enumeration of `mwm_xcb/src/xcb_event_type.rs`, one
variant per arm of the `xcb_event_types!` invocation plus the
dynamically-offset `RandrNotify`. -/
inductive XcbEventType where
  | keyPress
  | keyRelease
  | buttonPress
  | buttonRelease
  | motionNotify
  | enterNotify
  | leaveNotify
  | focusIn
  | focusOut
  | keymapNotify
  | expose
  | graphicsExposure
  | noExposure
  | visibilityNotify
  | createNotify
  | destroyNotify
  | unmapNotify
  | mapNotify
  | mapRequest
  | reparentNotify
  | configureNotify
  | configureRequest
  | gravityNotify
  | resizeRequest
  | circulateNotify
  | circulateRequest
  | propertyNotify
  | selectionClear
  | selectionRequest
  | selectionNotify
  | colormapNotify
  | clientMessage
  | mappingNotify
  | generic
  | screenChangeNotify
  | randrNotify
deriving DecidableEq, Repr

/-- Mirrors `TryFrom<u8> for XcbEventType` in `mwm_xcb/src/xcb_event_type.rs`:
mask off the send-event bit (`etype & !0x80`), match the fixed protocol
constants (the randr `SCREEN_CHANGE_NOTIFY` constant is `0`), and otherwise
recognize `randr_base + NOTIFY` (`NOTIFY = 1`) when the process-wide base
slot holds a connection's base code (`0xff` means unset). -/
def tryFromTag (randrBase : Nat) (etype : Nat) : Except Nat XcbEventType :=
  match etype &&& 0x7f with
  | 2 => .ok .keyPress
  | 3 => .ok .keyRelease
  | 4 => .ok .buttonPress
  | 5 => .ok .buttonRelease
  | 6 => .ok .motionNotify
  | 7 => .ok .enterNotify
  | 8 => .ok .leaveNotify
  | 9 => .ok .focusIn
  | 10 => .ok .focusOut
  | 11 => .ok .keymapNotify
  | 12 => .ok .expose
  | 13 => .ok .graphicsExposure
  | 14 => .ok .noExposure
  | 15 => .ok .visibilityNotify
  | 16 => .ok .createNotify
  | 17 => .ok .destroyNotify
  | 18 => .ok .unmapNotify
  | 19 => .ok .mapNotify
  | 20 => .ok .mapRequest
  | 21 => .ok .reparentNotify
  | 22 => .ok .configureNotify
  | 23 => .ok .configureRequest
  | 24 => .ok .gravityNotify
  | 25 => .ok .resizeRequest
  | 26 => .ok .circulateNotify
  | 27 => .ok .circulateRequest
  | 28 => .ok .propertyNotify
  | 29 => .ok .selectionClear
  | 30 => .ok .selectionRequest
  | 31 => .ok .selectionNotify
  | 32 => .ok .colormapNotify
  | 33 => .ok .clientMessage
  | 34 => .ok .mappingNotify
  | 35 => .ok .generic
  | 0 => .ok .screenChangeNotify
  | unknown =>
    if randrBase ≠ 0xff ∧ unknown = randrBase + 1 then .ok .randrNotify
    else .error unknown

/-- A raw wire event as seen through the `xcb::GenericEvent` accessors used
by `process_xcb_events`: the response-type tag plus the union of the fields
the concrete casts read.  Window-valued fields are raw ids (`0` = NONE). -/
structure RawEvent where
  responseType : Nat := 0
  detail : Nat := 0
  time : Nat := 0
  root : Nat := 0
  event : Nat := 0
  child : Nat := 0
  window : Nat := 0
  parent : Nat := 0
  sibling : Nat := 0
  aboveSibling : Nat := 0
  rootX : Int := 0
  rootY : Int := 0
  eventX : Int := 0
  eventY : Int := 0
  x : Int := 0
  y : Int := 0
  w : Nat := 0
  h : Nat := 0
  borderWidth : Nat := 0
  overrideRedirect : Bool := false
  state : Nat := 0
  sameScreen : Bool := false
  mode : Nat := 0
  sameScreenFocus : Nat := 0
  stackMode : Nat := 0
  valueMask : Nat := 0
  fromConfigure : Bool := false
deriving DecidableEq, Repr

namespace ev

/-- Mirrors `event::ButtonPress` (`mwm_xcb/src/event.rs`). -/
structure ButtonPress where
  detail : Nat
  time : Nat
  root : Nat
  event : Nat
  child : Nat
  rootPos : Point
  eventPos : Point
  state : Nat
  sameScreen : Bool
deriving DecidableEq, Repr

/-- Mirrors `event::ButtonRelease`. -/
structure ButtonRelease where
  detail : Nat
  time : Nat
  root : Nat
  event : Nat
  child : Nat
  rootPos : Point
  eventPos : Point
  state : Nat
  sameScreen : Bool
deriving DecidableEq, Repr

/-- Mirrors `event::ConfigureNotify`. -/
structure ConfigureNotify where
  event : Nat
  window : Nat
  aboveSibling : Option Nat
  region : Region
  borderWidth : Nat
  overrideRedirect : Bool
deriving DecidableEq, Repr

/-- Mirrors `event::ConfigureRequest`. -/
structure ConfigureRequest where
  stackMode : Nat
  parent : Nat
  window : Nat
  sibling : Option Nat
  region : Region
  borderWidth : Nat
  valueMask : Nat
deriving DecidableEq, Repr

/-- Mirrors `event::CreateNotify`. -/
structure CreateNotify where
  parent : Nat
  window : Nat
  region : Region
  borderWidth : Nat
  overrideRedirect : Bool
deriving DecidableEq, Repr

/-- Mirrors `event::DestroyNotify`. -/
structure DestroyNotify where
  event : Nat
  window : Nat
deriving DecidableEq, Repr

/-- Mirrors `event::EnterNotify`. -/
structure EnterNotify where
  detail : Nat
  time : Nat
  root : Nat
  event : Nat
  child : Nat
  rootPos : Point
  eventPos : Point
  state : Nat
  mode : Nat
  sameScreenFocus : Nat
deriving DecidableEq, Repr

/-- Mirrors `event::FocusIn`. -/
structure FocusIn where
  detail : Nat
  event : Nat
  mode : Nat
deriving DecidableEq, Repr

/-- Mirrors `event::FocusOut`. -/
structure FocusOut where
  detail : Nat
  event : Nat
  mode : Nat
deriving DecidableEq, Repr

/-- Mirrors `event::KeyPress`. -/
structure KeyPress where
  detail : Nat
  time : Nat
  root : Nat
  event : Nat
  child : Nat
  rootPos : Point
  eventPos : Point
  state : Nat
  sameScreen : Bool
deriving DecidableEq, Repr

/-- Mirrors `event::LeaveNotify`. -/
structure LeaveNotify where
  detail : Nat
  time : Nat
  root : Nat
  event : Nat
  child : Nat
  rootPos : Point
  eventPos : Point
  state : Nat
  mode : Nat
  sameScreenFocus : Nat
deriving DecidableEq, Repr

/-- Mirrors `event::MapNotify`. -/
structure MapNotify where
  event : Nat
  window : Nat
  overrideRedirect : Bool
deriving DecidableEq, Repr

/-- Mirrors `event::MapRequest`. -/
structure MapRequest where
  parent : Nat
  window : Nat
deriving DecidableEq, Repr

/-- Mirrors `event::MotionNotify`. -/
structure MotionNotify where
  detail : Nat
  time : Nat
  root : Nat
  event : Nat
  child : Nat
  rootPos : Point
  eventPos : Point
  state : Nat
  sameScreen : Bool
deriving DecidableEq, Repr

/-- Mirrors `event::UnmapNotify`. -/
structure UnmapNotify where
  event : Nat
  window : Nat
  fromConfigure : Bool
deriving DecidableEq, Repr

end ev

/-- One typed domain event, the closed set forwarded by
`process_xcb_events` as bevy events. -/
inductive DomainEvent where
  | buttonPress (e : ev.ButtonPress)
  | buttonRelease (e : ev.ButtonRelease)
  | configureNotify (e : ev.ConfigureNotify)
  | configureRequest (e : ev.ConfigureRequest)
  | createNotify (e : ev.CreateNotify)
  | destroyNotify (e : ev.DestroyNotify)
  | enterNotify (e : ev.EnterNotify)
  | focusIn (e : ev.FocusIn)
  | focusOut (e : ev.FocusOut)
  | keyPress (e : ev.KeyPress)
  | leaveNotify (e : ev.LeaveNotify)
  | mapNotify (e : ev.MapNotify)
  | mapRequest (e : ev.MapRequest)
  | motionNotify (e : ev.MotionNotify)
  | unmapNotify (e : ev.UnmapNotify)
deriving DecidableEq, Repr

/-- What one raw event becomes inside `process_xcb_events`: forwarded,
recognized-but-intentionally-dropped, unrecognized-tag (warn and skip), or
a `XWinId::from_raw` panic on a NONE window id. -/
inductive DecodeStep where
  | emit (e : DomainEvent)
  | ignored
  | unrecognized (tag : Nat)
  | panicNullWindow
deriving DecidableEq, Repr

/-- Lifts the result of one decode arm: `XWinId::from_raw`'s panic (`none`)
aborts the process. -/
def emitOpt : Option DomainEvent → DecodeStep
  | some e => .emit e
  | none => .panicNullWindow

def isEmit : DecodeStep → Bool
  | .emit _ => true
  | _ => false

/-- ButtonPress arm of `process_xcb_events`. -/
def decodeButtonPress (raw : RawEvent) : Option DomainEvent :=
  match XWinId.fromRaw raw.root, XWinId.fromRaw raw.event, XWinId.fromRaw raw.child with
  | some root, some event, some child =>
    some (.buttonPress
      { detail := raw.detail, time := raw.time, root := root, event := event,
        child := child, rootPos := ⟨raw.rootX, raw.rootY⟩,
        eventPos := ⟨raw.eventX, raw.eventY⟩, state := raw.state,
        sameScreen := raw.sameScreen })
  | _, _, _ => none

/-- ButtonRelease arm of `process_xcb_events` (the source also casts to
`ButtonPressEvent` here). -/
def decodeButtonRelease (raw : RawEvent) : Option DomainEvent :=
  match XWinId.fromRaw raw.root, XWinId.fromRaw raw.event, XWinId.fromRaw raw.child with
  | some root, some event, some child =>
    some (.buttonRelease
      { detail := raw.detail, time := raw.time, root := root, event := event,
        child := child, rootPos := ⟨raw.rootX, raw.rootY⟩,
        eventPos := ⟨raw.eventX, raw.eventY⟩, state := raw.state,
        sameScreen := raw.sameScreen })
  | _, _, _ => none

/-- ConfigureNotify arm of `process_xcb_events`; note `above_sibling` goes
through `from_raw_nullable`. -/
def decodeConfigureNotify (raw : RawEvent) : Option DomainEvent :=
  match XWinId.fromRaw raw.event, XWinId.fromRaw raw.window with
  | some event, some window =>
    some (.configureNotify
      { event := event, window := window,
        aboveSibling := XWinId.fromRawNullable raw.aboveSibling,
        region := ⟨raw.x, raw.y, raw.w, raw.h⟩,
        borderWidth := raw.borderWidth,
        overrideRedirect := raw.overrideRedirect })
  | _, _ => none

/-- ConfigureRequest arm of `process_xcb_events`; `sibling` goes through
`from_raw_nullable`. -/
def decodeConfigureRequest (raw : RawEvent) : Option DomainEvent :=
  match XWinId.fromRaw raw.parent, XWinId.fromRaw raw.window with
  | some parent, some window =>
    some (.configureRequest
      { stackMode := raw.stackMode, parent := parent, window := window,
        sibling := XWinId.fromRawNullable raw.sibling,
        region := ⟨raw.x, raw.y, raw.w, raw.h⟩,
        borderWidth := raw.borderWidth, valueMask := raw.valueMask })
  | _, _ => none

/-- CreateNotify arm of `process_xcb_events`. -/
def decodeCreateNotify (raw : RawEvent) : Option DomainEvent :=
  match XWinId.fromRaw raw.parent, XWinId.fromRaw raw.window with
  | some parent, some window =>
    some (.createNotify
      { parent := parent, window := window,
        region := ⟨raw.x, raw.y, raw.w, raw.h⟩,
        borderWidth := raw.borderWidth,
        overrideRedirect := raw.overrideRedirect })
  | _, _ => none

/-- DestroyNotify arm of `process_xcb_events`. -/
def decodeDestroyNotify (raw : RawEvent) : Option DomainEvent :=
  match XWinId.fromRaw raw.event, XWinId.fromRaw raw.window with
  | some event, some window =>
    some (.destroyNotify { event := event, window := window })
  | _, _ => none

/-- EnterNotify arm of `process_xcb_events`. -/
def decodeEnterNotify (raw : RawEvent) : Option DomainEvent :=
  match XWinId.fromRaw raw.root, XWinId.fromRaw raw.event, XWinId.fromRaw raw.child with
  | some root, some event, some child =>
    some (.enterNotify
      { detail := raw.detail, time := raw.time, root := root, event := event,
        child := child, rootPos := ⟨raw.rootX, raw.rootY⟩,
        eventPos := ⟨raw.eventX, raw.eventY⟩, state := raw.state,
        mode := raw.mode, sameScreenFocus := raw.sameScreenFocus })
  | _, _, _ => none

/-- FocusIn arm of `process_xcb_events`. -/
def decodeFocusIn (raw : RawEvent) : Option DomainEvent :=
  match XWinId.fromRaw raw.event with
  | some event =>
    some (.focusIn { detail := raw.detail, event := event, mode := raw.mode })
  | none => none

/-- FocusOut arm of `process_xcb_events`. -/
def decodeFocusOut (raw : RawEvent) : Option DomainEvent :=
  match XWinId.fromRaw raw.event with
  | some event =>
    some (.focusOut { detail := raw.detail, event := event, mode := raw.mode })
  | none => none

/-- KeyPress arm of `process_xcb_events`. -/
def decodeKeyPress (raw : RawEvent) : Option DomainEvent :=
  match XWinId.fromRaw raw.root, XWinId.fromRaw raw.event, XWinId.fromRaw raw.child with
  | some root, some event, some child =>
    some (.keyPress
      { detail := raw.detail, time := raw.time, root := root, event := event,
        child := child, rootPos := ⟨raw.rootX, raw.rootY⟩,
        eventPos := ⟨raw.eventX, raw.eventY⟩, state := raw.state,
        sameScreen := raw.sameScreen })
  | _, _, _ => none

/-- LeaveNotify arm of `process_xcb_events`. -/
def decodeLeaveNotify (raw : RawEvent) : Option DomainEvent :=
  match XWinId.fromRaw raw.root, XWinId.fromRaw raw.event, XWinId.fromRaw raw.child with
  | some root, some event, some child =>
    some (.leaveNotify
      { detail := raw.detail, time := raw.time, root := root, event := event,
        child := child, rootPos := ⟨raw.rootX, raw.rootY⟩,
        eventPos := ⟨raw.eventX, raw.eventY⟩, state := raw.state,
        mode := raw.mode, sameScreenFocus := raw.sameScreenFocus })
  | _, _, _ => none

/-- MapNotify arm of `process_xcb_events`. -/
def decodeMapNotify (raw : RawEvent) : Option DomainEvent :=
  match XWinId.fromRaw raw.event, XWinId.fromRaw raw.window with
  | some event, some window =>
    some (.mapNotify
      { event := event, window := window,
        overrideRedirect := raw.overrideRedirect })
  | _, _ => none

/-- MapRequest arm of `process_xcb_events`. -/
def decodeMapRequest (raw : RawEvent) : Option DomainEvent :=
  match XWinId.fromRaw raw.parent, XWinId.fromRaw raw.window with
  | some parent, some window =>
    some (.mapRequest { parent := parent, window := window })
  | _, _ => none

/-- MotionNotify arm of `process_xcb_events`. -/
def decodeMotionNotify (raw : RawEvent) : Option DomainEvent :=
  match XWinId.fromRaw raw.root, XWinId.fromRaw raw.event, XWinId.fromRaw raw.child with
  | some root, some event, some child =>
    some (.motionNotify
      { detail := raw.detail, time := raw.time, root := root, event := event,
        child := child, rootPos := ⟨raw.rootX, raw.rootY⟩,
        eventPos := ⟨raw.eventX, raw.eventY⟩, state := raw.state,
        sameScreen := raw.sameScreen })
  | _, _, _ => none

/-- UnmapNotify arm of `process_xcb_events`. -/
def decodeUnmapNotify (raw : RawEvent) : Option DomainEvent :=
  match XWinId.fromRaw raw.event, XWinId.fromRaw raw.window with
  | some event, some window =>
    some (.unmapNotify
      { event := event, window := window,
        fromConfigure := raw.fromConfigure })
  | _, _ => none

/-- The `match etype` of `process_xcb_events`
(`mwm_xcb/src/xcb_event_systems.rs` lines 106-420): fifteen arms forward a
typed event, every other recognized tag falls into the final
`_ => trace!("ignoring ...")` arm. -/
def dispatchEvent (t : XcbEventType) (raw : RawEvent) : DecodeStep :=
  match t with
  | .buttonPress => emitOpt (decodeButtonPress raw)
  | .buttonRelease => emitOpt (decodeButtonRelease raw)
  | .configureNotify => emitOpt (decodeConfigureNotify raw)
  | .configureRequest => emitOpt (decodeConfigureRequest raw)
  | .createNotify => emitOpt (decodeCreateNotify raw)
  | .destroyNotify => emitOpt (decodeDestroyNotify raw)
  | .enterNotify => emitOpt (decodeEnterNotify raw)
  | .focusIn => emitOpt (decodeFocusIn raw)
  | .focusOut => emitOpt (decodeFocusOut raw)
  | .keyPress => emitOpt (decodeKeyPress raw)
  | .leaveNotify => emitOpt (decodeLeaveNotify raw)
  | .mapNotify => emitOpt (decodeMapNotify raw)
  | .mapRequest => emitOpt (decodeMapRequest raw)
  | .motionNotify => emitOpt (decodeMotionNotify raw)
  | .unmapNotify => emitOpt (decodeUnmapNotify raw)
  | _ => .ignored

/-- One raw event through `process_xcb_events`: tag recognition first, then
the typed dispatch. -/
def decodeOne (randrBase : Nat) (raw : RawEvent) : DecodeStep :=
  match tryFromTag randrBase raw.responseType with
  | .ok t => dispatchEvent t raw
  | .error u => .unrecognized u

/-- The whole batch loop of `process_xcb_events`: events are decoded in
wire arrival order; an unrecognized tag or a recognized-but-unhandled tag
contributes nothing; a `from_raw` panic aborts the process (`none`). -/
def processXcbEvents (randrBase : Nat) : List RawEvent → Option (List DomainEvent)
  | [] => some []
  | r :: rest =>
    match decodeOne randrBase r with
    | .panicNullWindow => none
    | .emit e => (processXcbEvents randrBase rest).map (fun l => e :: l)
    | .ignored => processXcbEvents randrBase rest
    | .unrecognized _ => processXcbEvents randrBase rest

/-- The event types that `process_xcb_events` forwards as domain events. -/
def handledTypes : List XcbEventType :=
  [.buttonPress, .buttonRelease, .configureNotify, .configureRequest,
   .createNotify, .destroyNotify, .enterNotify, .focusIn, .focusOut,
   .keyPress, .leaveNotify, .mapNotify, .mapRequest, .motionNotify,
   .unmapNotify]

/-- A raw event whose required (non-nullable) window fields are all valid
(non-NONE) ids. -/
abbrev GoodRaw (raw : RawEvent) : Prop :=
  raw.root ≠ 0 ∧ raw.event ≠ 0 ∧ raw.child ≠ 0 ∧ raw.window ≠ 0 ∧ raw.parent ≠ 0

/-- A valid KeyRelease wire event (tag 3). -/
def rawKeyRelease : RawEvent :=
  { responseType := 3, detail := 24, root := 1, event := 2, child := 3 }

/-- A valid ClientMessage wire event (tag 33). -/
def rawClientMessage : RawEvent :=
  { responseType := 33, window := 6 }

/-- A randr output-change notification when the stored base code is 90. -/
def rawRandrNotify : RawEvent :=
  { responseType := 91 }

/-- A wire event with an undefined tag. -/
def rawUnknownTag : RawEvent :=
  { responseType := 90 }

/-- A MapRequest wire event whose required window field is the NONE id. -/
def rawNullWindowMapRequest : RawEvent :=
  { responseType := 20, parent := 5, window := 0 }

/-- The `RequestMap` desired-state marker (`mwm_xcb/src/lib.rs`,
`request` module). -/
inductive RequestMap where
  | map
  | unmap
deriving DecidableEq, Repr

/-- A window entity as a sparse component set: `window` is the `XWinId`
component every spawned window carries, the `Bool` fields model presence of
the `IsManaged`/`IsMapped` markers, and the `Option` fields model presence
and payload of `PrefferedSize`, `Size` (actual), `Border` (actual),
`RequestMap`, `RequestConfigure` (the `plugin.rs` marker) and
`RequestSize`/`RequestBorder` (the `xcb_request_systems.rs` markers). -/
structure WindowEntity where
  window : Nat
  isManaged : Bool := false
  isMapped : Bool := false
  prefferedSize : Option Region := none
  size : Option Region := none
  border : Option Nat := none
  requestMap : Option RequestMap := none
  requestConfigure : Option Region := none
  requestSize : Option Region := none
  requestBorder : Option Nat := none
deriving DecidableEq, Repr

/-- The entity spawned by `spawn_windows` (`mwm_xcb/src/plugin.rs` lines
100-117) for a create event: window id and `PrefferedSize` from the event,
plus `IsManaged` iff the event's override-redirect flag is false. -/
def spawnedEntity (e : ev.CreateNotify) : WindowEntity :=
  { window := e.window,
    isManaged := !e.overrideRedirect,
    prefferedSize := some e.region }

/-- Mirrors `spawn_windows`: each create event spawns one fresh entity. -/
def spawnWindows (table : List WindowEntity) (e : ev.CreateNotify) :
    List WindowEntity :=
  table ++ [spawnedEntity e]

/-- Mirrors `despawn_windows` (`mwm_xcb/src/plugin.rs` lines 121-134):
every entity whose window id equals the destroy event's window is
despawned with all its components. -/
def despawnWindows (table : List WindowEntity) (e : ev.DestroyNotify) :
    List WindowEntity :=
  table.filter (fun w => w.window != e.window)

/-- Mirrors `map_unmanaged_windows` (`mwm_xcb/src/plugin.rs` lines
138-151): the query excludes entities with `IsMapped` or `IsManaged`; a
matching map-request inserts `RequestMap::Map`. -/
def mapUnmanagedWindows (w : WindowEntity) (e : ev.MapRequest) :
    WindowEntity :=
  if w.window = e.window ∧ w.isMapped = false ∧ w.isManaged = false then
    { w with requestMap := some .map }
  else w

/-- Mirrors `mark_mapped_windows` (`mwm_xcb/src/plugin.rs` lines 155-170):
a matching map-notify removes any `RequestMap` and inserts `IsMapped`. -/
def markMappedWindows (w : WindowEntity) (e : ev.MapNotify) :
    WindowEntity :=
  if w.window = e.window then
    { w with requestMap := none, isMapped := true }
  else w

/-- Mirrors `mark_unmapped_windows` (`mwm_xcb/src/plugin.rs` lines
174-186): a matching unmap-notify removes `RequestMap` and `IsMapped`
together. -/
def markUnmappedWindows (w : WindowEntity) (e : ev.UnmapNotify) :
    WindowEntity :=
  if w.window = e.window then
    { w with requestMap := none, isMapped := false }
  else w

/-- Mirrors `mark_preffered_size_windows` (`mwm_xcb/src/plugin.rs` lines
191-214): a matching configure-request inserts `PrefferedSize` with the
requested region unconditionally and additionally inserts
`RequestConfigure` with that region when the entity is not managed.  The
event's border width is read by no branch. -/
def markPrefferedSizeWindows (w : WindowEntity) (e : ev.ConfigureRequest) :
    WindowEntity :=
  if w.window = e.window then
    if w.isManaged then
      { w with prefferedSize := some e.region }
    else
      { w with prefferedSize := some e.region,
               requestConfigure := some e.region }
  else w

/-- Mirrors `mark_size_windows` (`mwm_xcb/src/plugin.rs` lines 218-236): a
matching configure-notify inserts the actual `Size`. -/
def markSizeWindows (w : WindowEntity) (e : ev.ConfigureNotify) :
    WindowEntity :=
  if w.window = e.window then
    { w with size := some e.region }
  else w

/-- Outbound protocol requests emitted by the reconciliation systems
(`mwm_xcb/src/xcb_request_systems.rs`). -/
inductive ConfigField where
  | fieldX (v : Int)
  | fieldY (v : Int)
  | fieldWidth (v : Nat)
  | fieldHeight (v : Nat)
  | fieldBorderWidth (v : Nat)
deriving DecidableEq, Repr

/-- Requests sent on the connection by the reconciliation systems. -/
inductive XRequest where
  | mapWindow (window : Nat)
  | unmapWindow (window : Nat)
  | configureWindow (window : Nat) (valueList : List ConfigField)
deriving DecidableEq, Repr

/-- Mirrors `process_request_map` (`mwm_xcb/src/xcb_request_systems.rs`
lines 9-32) on one entity: the `Added<RequestMap>` query matches exactly
the entities carrying a freshly attached marker (markers are consumed every
pass, so presence coincides with `Added` within an iteration); a map
request is sent when the marker is `Map` and the entity is not mapped, an
unmap request when the marker is `Unmap` and the entity is mapped, nothing
otherwise; the marker is removed unconditionally. -/
def processRequestMap (w : WindowEntity) : List XRequest × WindowEntity :=
  match w.requestMap with
  | none => ([], w)
  | some rm =>
    let reqs :=
      match w.isMapped, rm with
      | false, .map => [XRequest.mapWindow w.window]
      | true, .unmap => [XRequest.unmapWindow w.window]
      | _, _ => []
    (reqs, { w with requestMap := none })

/-- The `cmd` vector built by `process_request_resize`
(`mwm_xcb/src/xcb_request_systems.rs` lines 51-73): one entry per field of
the requested geometry/border that differs from the actual `Size`/`Border`,
in source push order. -/
def resizeCmd (requestSize : Option Region) (size : Region)
    (requestBorder : Option Nat) (border : Nat) : List ConfigField :=
  (match requestSize with
   | some r =>
     (if r.x ≠ size.x then [ConfigField.fieldX r.x] else [])
       ++ (if r.y ≠ size.y then [ConfigField.fieldY r.y] else [])
       ++ (if r.w ≠ size.w then [ConfigField.fieldWidth r.w] else [])
       ++ (if r.h ≠ size.h then [ConfigField.fieldHeight r.h] else [])
   | none => [])
  ++ (match requestBorder with
      | some b => if b ≠ border then [ConfigField.fieldBorderWidth b] else []
      | none => [])

/-- Mirrors `process_request_resize` (`mwm_xcb/src/xcb_request_systems.rs`
lines 38-83) on one entity: the query demands the actual `Size` and
`Border` components and a freshly attached `RequestSize` or `RequestBorder`
marker; a single configure request carrying the differing fields is sent
unless the diff is empty. -/
def processRequestResize (w : WindowEntity) : Option XRequest :=
  if w.requestSize.isSome ∨ w.requestBorder.isSome then
    match w.size, w.border with
    | some s, some b =>
      let cmd := resizeCmd w.requestSize s w.requestBorder b
      if cmd = [] then none
      else some (.configureWindow w.window cmd)
    | _, _ => none
  else none

/-- One domain event through the per-entity lifecycle systems of
`CoreStage::Update` (`mwm_xcb/src/plugin.rs`); create and destroy act on
the table, all remaining forwarded events have no entity-level handler. -/
def updateEntity (w : WindowEntity) (e : DomainEvent) : WindowEntity :=
  match e with
  | .mapRequest e => mapUnmanagedWindows w e
  | .mapNotify e => markMappedWindows w e
  | .unmapNotify e => markUnmappedWindows w e
  | .configureRequest e => markPrefferedSizeWindows w e
  | .configureNotify e => markSizeWindows w e
  | _ => w

/-- One domain event through the table-level lifecycle stage: create spawns,
destroy despawns, every other event updates each entity in place. -/
def updateTable (table : List WindowEntity) (e : DomainEvent) :
    List WindowEntity :=
  match e with
  | .createNotify ce => spawnWindows table ce
  | .destroyNotify de => despawnWindows table de
  | _ => table.map (fun w => updateEntity w e)

/-- A finite event sequence through the lifecycle stage. -/
def runTable (table : List WindowEntity) (evts : List DomainEvent) :
    List WindowEntity :=
  evts.foldl updateTable table

/-- Specification view of the entity table: the list of window identifiers
whose create is not yet matched by a destroy. -/
def activeStep (s : List Nat) (e : DomainEvent) : List Nat :=
  match e with
  | .createNotify ce => s ++ [ce.window]
  | .destroyNotify de => s.filter (fun i => i != de.window)
  | _ => s

/-- Well-formedness of an event sequence relative to the currently active
identifiers: a window identifier is never reused by a create while its
entity still exists. -/
def wfEvents (s : List Nat) : List DomainEvent → Bool
  | [] => true
  | e :: rest =>
    (match e with
     | .createNotify ce => !(s.contains ce.window)
     | _ => true)
    && wfEvents (activeStep s e) rest

/-- C1: during session bootstrap the program requests substructure-redirect
interest on the root window, checks the reply, and aborts startup if that
fails.  The code does not: for every environment, the request list fired by
`XConn::init` contains no substructure-redirect request, and with every
reply succeeding bootstrap completes successfully, so startup finishes
without that authority ever being requested — contradicting the doc comment
of `impl FromWorld for XConn` ("attempts to register self as a
substructure_redirect client"). -/
theorem c1_init_never_requests_substructure_redirect :
    (∀ env : BootEnv,
      BootRequest.substructureRedirectAttrs ∉ initRequests env)
    ∧ initResult envAllOk = Except.ok ()
    ∧ initRequests envAllOk ≠ [] := by
  refine ⟨?_, rfl, by decide⟩
  intro env
  unfold initRequests
  split
  · decide
  · simp

/-- C2 counterexample: the claim says a failed flush aborts the process; in
the code (`flush_xcb`, `mwm_xcb/src/xcb_event_systems.rs` lines 41-46) a
failed flush merely logs a warning and the loop keeps running. -/
theorem c2_flush_failure_does_not_abort :
    flushXcb false ≠ FlushOutcome.abortProcess ∧
    flushXcb false = FlushOutcome.keepRunning true := by
  decide

/-- C2 amended: at the end of every loop iteration exactly one flush of
buffered requests is issued (the `flush_xcb` system is registered once, in
the final stage), and a failed flush logs a warning while the process keeps
running — flush failure is not fatal. -/
theorem c2_flush_once_per_iteration_warn_on_failure :
    iterationSchedule.countP (fun s => s == SystemName.flushXcbSys) = 1
    ∧ iterationSchedule.getLast? = some SystemName.flushXcbSys
    ∧ flushXcb true = FlushOutcome.keepRunning false
    ∧ flushXcb false = FlushOutcome.keepRunning true := by
  decide

/-- C3 counterexample: the claim requires the tag-to-domain mapping to
cover key release, client messages and the output-change notification; all
three tags are recognized by `XcbEventType::try_from` yet fall into the
"ignoring received event type" arm of `process_xcb_events`, forwarding no
domain event. -/
theorem c3_recognized_tags_dropped :
    tryFromTag 0xff rawKeyRelease.responseType = .ok .keyRelease
    ∧ processXcbEvents 0xff [rawKeyRelease] = some []
    ∧ tryFromTag 0xff rawClientMessage.responseType = .ok .clientMessage
    ∧ processXcbEvents 0xff [rawClientMessage] = some []
    ∧ tryFromTag 90 rawRandrNotify.responseType = .ok .randrNotify
    ∧ processXcbEvents 90 [rawRandrNotify] = some [] :=
  ⟨rfl, rfl, rfl, rfl, rfl, rfl⟩

/-- C3 amended: each raw event with valid window fields whose tag is
recognized forwards exactly one typed domain event when the tag is among
button press/release, pointer motion, enter/leave, focus in/out, key press,
window create/destroy/map/unmap/map-request/configure-notify/
configure-request — and none otherwise (key release, client messages and
the output-change notification are among the recognized-but-dropped tags);
decoding preserves wire arrival order and neither duplicates nor merges
events. -/
theorem c3_decode_coverage_and_order :
    (∀ (raw : RawEvent) (t : XcbEventType), GoodRaw raw →
      (isEmit (dispatchEvent t raw) = true ↔ t ∈ handledTypes))
    ∧ (∀ (randrBase : Nat) (xs ys : List RawEvent),
        processXcbEvents randrBase (xs ++ ys)
          = (processXcbEvents randrBase xs).bind
              (fun l₁ => (processXcbEvents randrBase ys).map (fun l₂ => l₁ ++ l₂)))
    ∧ (∀ (randrBase : Nat) (raw : RawEvent) (e : DomainEvent),
        decodeOne randrBase raw = .emit e →
        processXcbEvents randrBase [raw] = some [e]) := by
  refine ⟨?_, ?_, ?_⟩
  · intro raw t h
    obtain ⟨h₁, h₂, h₃, h₄, h₅⟩ := h
    cases t <;>
      simp [dispatchEvent, handledTypes, isEmit, emitOpt,
        decodeButtonPress, decodeButtonRelease, decodeConfigureNotify,
        decodeConfigureRequest, decodeCreateNotify, decodeDestroyNotify,
        decodeEnterNotify, decodeFocusIn, decodeFocusOut, decodeKeyPress,
        decodeLeaveNotify, decodeMapNotify, decodeMapRequest,
        decodeMotionNotify, decodeUnmapNotify,
        XWinId.fromRaw, XWinId.fromRawNullable, h₁, h₂, h₃, h₄, h₅]
  · intro randrBase xs ys
    induction xs with
    | nil =>
      cases h : processXcbEvents randrBase ys <;>
        simp [processXcbEvents, h]
    | cons r rest ih =>
      cases hd : decodeOne randrBase r
      all_goals simp [processXcbEvents, hd, ih]
      all_goals cases hxs : processXcbEvents randrBase rest <;>
        cases hys : processXcbEvents randrBase ys <;>
        simp [hxs, hys]
  · intro randrBase raw e h
    simp [processXcbEvents, h]

/-- C3 amended, witnessed: a concrete good KeyPress wire event is forwarded
(its tag is in the handled set), instantiating the coverage theorem. -/
theorem c3_decode_coverage_witness :
    GoodRaw { responseType := 2, root := 1, event := 2, child := 3,
              window := 4, parent := 5 }
    ∧ isEmit (dispatchEvent .keyPress
        { responseType := 2, root := 1, event := 2, child := 3,
          window := 4, parent := 5 }) = true :=
  ⟨by decide,
   (c3_decode_coverage_and_order.1
      { responseType := 2, root := 1, event := 2, child := 3,
        window := 4, parent := 5 } .keyPress (by decide)).mpr (by decide)⟩

/-- C10: `XWinId::from_raw_nullable` returns `none` exactly on the protocol
NONE id (zero), `XWinId::from_raw` panics exactly there, and consequently a
wire event whose required window field is zero aborts the whole decode pass
by panic (result `none`), while an unrecognized tag is merely logged and
skipped (result `some []`). -/
theorem c10_null_window_id_panics :
    (∀ raw : Nat, XWinId.fromRawNullable raw = none ↔ raw = 0)
    ∧ (∀ raw : Nat, XWinId.fromRaw raw = none ↔ raw = 0)
    ∧ decodeOne 0xff rawNullWindowMapRequest = DecodeStep.panicNullWindow
    ∧ processXcbEvents 0xff [rawNullWindowMapRequest] = none
    ∧ processXcbEvents 0xff [rawUnknownTag] = some [] := by
  refine ⟨?_, ?_, rfl, rfl, rfl⟩
  · intro raw
    unfold XWinId.fromRawNullable
    split <;> simp_all
  · intro raw
    unfold XWinId.fromRaw XWinId.fromRawNullable
    split <;> simp_all

/-- An unmanaged window entity (spawned from an override-redirect create). -/
def unmanagedEntity7 : WindowEntity := { window := 7 }

/-- A configure-request for window 7 asking for border width 5. -/
def configureRequest7 : ev.ConfigureRequest :=
  { stackMode := 0, parent := 1, window := 7, sibling := none,
    region := ⟨10, 20, 300, 400⟩, borderWidth := 5, valueMask := 0 }

/-- C4 counterexample: the claim requires a `RequestBorder` marker
mirroring the requested border (width 5 here) to be attached because the
entity lacks `Managed`; `mark_preffered_size_windows` reads no border field
and attaches no border marker — only the region marker is attached and no
preferred border is recorded. -/
theorem c4_no_border_marker_attached :
    configureRequest7.borderWidth = 5
    ∧ unmanagedEntity7.isManaged = false
    ∧ unmanagedEntity7.window = configureRequest7.window
    ∧ (markPrefferedSizeWindows unmanagedEntity7 configureRequest7).requestBorder = none
    ∧ (markPrefferedSizeWindows unmanagedEntity7 configureRequest7).requestConfigure
        = some configureRequest7.region := by
  decide

/-- C4 amended: on every configure-request matching an existing entity,
`PrefferedSize` is updated to the requested region unconditionally, and a
`RequestConfigure` marker mirroring the requested region is attached if and
only if the entity lacks `Managed` (a `Managed` entity's marker is left
untouched); the event's border width is ignored — no border request marker
is attached. -/
theorem c4_configure_request_updates :
    ∀ (w : WindowEntity) (e : ev.ConfigureRequest), w.window = e.window →
      (markPrefferedSizeWindows w e).prefferedSize = some e.region
      ∧ (w.isManaged = false →
          (markPrefferedSizeWindows w e).requestConfigure = some e.region)
      ∧ (w.isManaged = true →
          (markPrefferedSizeWindows w e).requestConfigure = w.requestConfigure)
      ∧ (markPrefferedSizeWindows w e).requestBorder = w.requestBorder
      ∧ (markPrefferedSizeWindows w e).requestSize = w.requestSize := by
  intro w e h
  unfold markPrefferedSizeWindows
  rw [if_pos h]
  cases hm : w.isManaged <;> simp [hm]

/-- C4 amended, witnessed at the concrete unmanaged entity and request. -/
theorem c4_configure_request_witness :
    (markPrefferedSizeWindows unmanagedEntity7 configureRequest7).prefferedSize
        = some configureRequest7.region
    ∧ (markPrefferedSizeWindows unmanagedEntity7 configureRequest7).requestConfigure
        = some configureRequest7.region :=
  ⟨(c4_configure_request_updates unmanagedEntity7 configureRequest7 rfl).1,
   (c4_configure_request_updates unmanagedEntity7 configureRequest7 rfl).2.1 rfl⟩

/-- C5: for an entity with a newly attached `RequestMap` marker,
reconciliation sends a map request iff the marker is `Map` and the entity
is not `Mapped`, an unmap request iff the marker is `Unmap` and the entity
is `Mapped`, nothing in the remaining combinations, and removes the marker
unconditionally in the same pass. -/
theorem c5_request_map_reconciliation :
    ∀ (w : WindowEntity) (rm : RequestMap), w.requestMap = some rm →
      ((processRequestMap w).1 = [XRequest.mapWindow w.window]
          ↔ rm = RequestMap.map ∧ w.isMapped = false)
      ∧ ((processRequestMap w).1 = [XRequest.unmapWindow w.window]
          ↔ rm = RequestMap.unmap ∧ w.isMapped = true)
      ∧ ((rm = RequestMap.map ∧ w.isMapped = true)
          ∨ (rm = RequestMap.unmap ∧ w.isMapped = false) →
          (processRequestMap w).1 = [])
      ∧ (processRequestMap w).2.requestMap = none := by
  intro w rm h
  unfold processRequestMap
  rw [h]
  cases rm <;> cases hm : w.isMapped <;> simp [hm]

/-- C5 witnessed: a concrete unmapped entity with a fresh `Map` marker gets
exactly a map request and loses the marker. -/
theorem c5_request_map_witness :
    (processRequestMap { window := 9, requestMap := some RequestMap.map }).1
        = [XRequest.mapWindow 9]
    ∧ (processRequestMap
        { window := 9, requestMap := some RequestMap.map }).2.requestMap = none :=
  ⟨(c5_request_map_reconciliation
      { window := 9, requestMap := some RequestMap.map } RequestMap.map rfl).1.mpr
      ⟨rfl, rfl⟩,
   (c5_request_map_reconciliation
      { window := 9, requestMap := some RequestMap.map } RequestMap.map rfl).2.2.2⟩

/-- C6: for an entity with a newly attached `RequestSize` or
`RequestBorder` marker (and the actual `Size`/`Border` components the query
demands), reconciliation builds a single configure request whose value list
contains exactly the fields among x, y, width, height, border-width whose
requested value differs from the actual one, and sends nothing when the
diff is empty — in particular when every requested value equals the actual
value. -/
theorem c6_request_resize_diff :
    ∀ (w : WindowEntity) (s : Region) (b : Nat),
      w.size = some s → w.border = some b →
      w.requestSize.isSome ∨ w.requestBorder.isSome →
      (processRequestResize w
          = if resizeCmd w.requestSize s w.requestBorder b = [] then none
            else some (XRequest.configureWindow w.window
                        (resizeCmd w.requestSize s w.requestBorder b)))
      ∧ (∀ v, ConfigField.fieldX v ∈ resizeCmd w.requestSize s w.requestBorder b
            ↔ ∃ r, w.requestSize = some r ∧ v = r.x ∧ r.x ≠ s.x)
      ∧ (∀ v, ConfigField.fieldY v ∈ resizeCmd w.requestSize s w.requestBorder b
            ↔ ∃ r, w.requestSize = some r ∧ v = r.y ∧ r.y ≠ s.y)
      ∧ (∀ v, ConfigField.fieldWidth v ∈ resizeCmd w.requestSize s w.requestBorder b
            ↔ ∃ r, w.requestSize = some r ∧ v = r.w ∧ r.w ≠ s.w)
      ∧ (∀ v, ConfigField.fieldHeight v ∈ resizeCmd w.requestSize s w.requestBorder b
            ↔ ∃ r, w.requestSize = some r ∧ v = r.h ∧ r.h ≠ s.h)
      ∧ (∀ v, ConfigField.fieldBorderWidth v ∈ resizeCmd w.requestSize s w.requestBorder b
            ↔ w.requestBorder = some v ∧ v ≠ b)
      ∧ ((w.requestSize = none ∨ w.requestSize = some s) →
         (w.requestBorder = none ∨ w.requestBorder = some b) →
         processRequestResize w = none) := by
  intro w s b hs hb htrig
  refine ⟨?_, ?_, ?_, ?_, ?_, ?_, ?_⟩
  · simp [processRequestResize, htrig, hs, hb]
  · intro v
    cases hrs : w.requestSize <;> cases hrb : w.requestBorder <;>
      simp [resizeCmd] <;> aesop
  · intro v
    cases hrs : w.requestSize <;> cases hrb : w.requestBorder <;>
      simp [resizeCmd] <;> aesop
  · intro v
    cases hrs : w.requestSize <;> cases hrb : w.requestBorder <;>
      simp [resizeCmd] <;> aesop
  · intro v
    cases hrs : w.requestSize <;> cases hrb : w.requestBorder <;>
      simp [resizeCmd] <;> aesop
  · intro v
    cases hrs : w.requestSize <;> cases hrb : w.requestBorder <;>
      simp [resizeCmd] <;> aesop
  · intro h₁ h₂
    rcases h₁ with h₁ | h₁ <;> rcases h₂ with h₂ | h₂ <;>
      simp_all [processRequestResize, resizeCmd]

/-- C6 witnessed: a concrete entity whose requested width alone differs
emits the one-field configure request, and one whose requested geometry
equals the actual geometry emits nothing. -/
theorem c6_request_resize_witness :
    (processRequestResize
        { window := 3, size := some ⟨0, 0, 800, 600⟩, border := some 1,
          requestSize := some ⟨0, 0, 1024, 600⟩, requestBorder := some 1 }
      = if resizeCmd (some ⟨0, 0, 1024, 600⟩) ⟨0, 0, 800, 600⟩ (some 1) 1 = [] then none
        else some (XRequest.configureWindow 3
                    (resizeCmd (some ⟨0, 0, 1024, 600⟩) ⟨0, 0, 800, 600⟩ (some 1) 1)))
    ∧ processRequestResize
        { window := 4, size := some ⟨0, 0, 800, 600⟩, border := some 1,
          requestSize := some ⟨0, 0, 800, 600⟩, requestBorder := some 1 } = none :=
  ⟨(c6_request_resize_diff
      { window := 3, size := some ⟨0, 0, 800, 600⟩, border := some 1,
        requestSize := some ⟨0, 0, 1024, 600⟩, requestBorder := some 1 }
      ⟨0, 0, 800, 600⟩ 1 rfl rfl (Or.inl rfl)).1,
   (c6_request_resize_diff
      { window := 4, size := some ⟨0, 0, 800, 600⟩, border := some 1,
        requestSize := some ⟨0, 0, 800, 600⟩, requestBorder := some 1 }
      ⟨0, 0, 800, 600⟩ 1 rfl rfl (Or.inl rfl)).2.2.2.2.2.2
      (Or.inr rfl) (Or.inr rfl)⟩

/-- C7: a map-request for an entity carrying neither `Mapped` nor `Managed`
(and no stale marker) attaches `RequestMap(Map)`, and the reconciliation
pass of the same iteration emits exactly one outbound map request while
consuming the marker; a managed entity is left completely untouched by this
handler. -/
theorem c7_map_request_unmanaged :
    ∀ (w : WindowEntity) (e : ev.MapRequest),
      (w.window = e.window → w.isMapped = false → w.isManaged = false →
        w.requestMap = none →
        (mapUnmanagedWindows w e).requestMap = some RequestMap.map
        ∧ (processRequestMap (mapUnmanagedWindows w e)).1
            = [XRequest.mapWindow w.window]
        ∧ (processRequestMap (mapUnmanagedWindows w e)).2.requestMap = none)
      ∧ (w.isManaged = true → mapUnmanagedWindows w e = w) := by
  intro w e
  constructor
  · intro h₁ h₂ h₃ _
    unfold mapUnmanagedWindows
    rw [if_pos ⟨h₁, h₂, h₃⟩]
    refine ⟨rfl, ?_, ?_⟩ <;> simp [processRequestMap, h₂]
  · intro hm
    unfold mapUnmanagedWindows
    rw [if_neg]
    simp [hm]

/-- C7 witnessed at a concrete unmanaged, unmapped entity. -/
theorem c7_map_request_witness :
    (processRequestMap
        (mapUnmanagedWindows { window := 11 } { parent := 1, window := 11 })).1
      = [XRequest.mapWindow 11] :=
  ((c7_map_request_unmanaged { window := 11 } { parent := 1, window := 11 }).1
    rfl rfl rfl rfl).2.1

/-- C8: across every domain event, `Mapped` flips to present only through
the map-notify handler (which also clears any `RequestMap`) and flips to
absent only through the unmap-notify handler (which clears `RequestMap` and
`Mapped` together); the map/unmap reconciliation never touches `Mapped`, so
no request handler sets it speculatively.  The per-event property holds for
every state, hence under any interleaving of map-request, map-notify and
unmap-notify. -/
theorem c8_mapped_only_by_notify :
    ∀ (w : WindowEntity) (e : DomainEvent),
      ((updateEntity w e).isMapped = true → w.isMapped = true
          ∨ ∃ me, e = DomainEvent.mapNotify me ∧ w.window = me.window)
      ∧ ((updateEntity w e).isMapped = false → w.isMapped = false
          ∨ ∃ ue, e = DomainEvent.unmapNotify ue ∧ w.window = ue.window)
      ∧ (∀ me, e = DomainEvent.mapNotify me → w.window = me.window →
          (updateEntity w e).isMapped = true
          ∧ (updateEntity w e).requestMap = none)
      ∧ (∀ ue, e = DomainEvent.unmapNotify ue → w.window = ue.window →
          (updateEntity w e).isMapped = false
          ∧ (updateEntity w e).requestMap = none)
      ∧ (processRequestMap w).2.isMapped = w.isMapped := by
  intro w e
  refine ⟨?_, ?_, ?_, ?_, ?_⟩
  · cases e <;>
      simp [updateEntity, mapUnmanagedWindows, markMappedWindows,
        markUnmappedWindows, markPrefferedSizeWindows, markSizeWindows] <;>
      split_ifs <;> simp_all
  · cases e <;>
      simp [updateEntity, mapUnmanagedWindows, markMappedWindows,
        markUnmappedWindows, markPrefferedSizeWindows, markSizeWindows] <;>
      split_ifs <;> simp_all
  · intro me hme hwin
    subst hme
    simp [updateEntity, markMappedWindows, hwin]
  · intro ue hue hwin
    subst hue
    simp [updateEntity, markUnmappedWindows, hwin]
  · unfold processRequestMap
    cases w.requestMap <;> simp

/-- C8 witnessed: a concrete map-notify sets `Mapped` and clears the
marker on the matching entity. -/
theorem c8_mapped_witness :
    (updateEntity { window := 5, requestMap := some RequestMap.map }
        (DomainEvent.mapNotify { event := 1, window := 5, overrideRedirect := false })).isMapped = true
    ∧ (updateEntity { window := 5, requestMap := some RequestMap.map }
        (DomainEvent.mapNotify { event := 1, window := 5, overrideRedirect := false })).requestMap = none :=
  (c8_mapped_only_by_notify { window := 5, requestMap := some RequestMap.map }
      (DomainEvent.mapNotify { event := 1, window := 5, overrideRedirect := false })).2.2.1
    { event := 1, window := 5, overrideRedirect := false } rfl rfl

/-- Every per-entity lifecycle handler preserves the window-id component. -/
theorem updateEntity_window (w : WindowEntity) (e : DomainEvent) :
    (updateEntity w e).window = w.window := by
  cases e <;>
    simp [updateEntity, mapUnmanagedWindows, markMappedWindows,
      markUnmappedWindows, markPrefferedSizeWindows, markSizeWindows] <;>
    split_ifs <;> rfl

/-- Mapping a non-spawning, non-despawning lifecycle handler over the table
leaves the per-identifier entity count unchanged. -/
theorem countP_map_updateEntity (t : List WindowEntity) (e : DomainEvent)
    (j : Nat) :
    (t.map (fun w => updateEntity w e)).countP (fun w => w.window == j)
      = t.countP (fun w => w.window == j) := by
  rw [List.countP_map]
  refine List.countP_congr ?_
  intro a _
  simp [Function.comp, updateEntity_window]

/-- Invariant carried through the lifecycle fold: if the table holds
exactly one entity per active identifier, it still does after any
well-formed event sequence. -/
theorem runTable_countP (evts : List DomainEvent) :
    ∀ (t : List WindowEntity) (s : List Nat),
      wfEvents s evts = true →
      (∀ id, t.countP (fun w => w.window == id) = if id ∈ s then 1 else 0) →
      ∀ id, (evts.foldl updateTable t).countP (fun w => w.window == id)
        = if id ∈ evts.foldl activeStep s then 1 else 0 := by
  induction evts with
  | nil => intro t s _ hinv id; exact hinv id
  | cons e rest ih =>
    intro t s hwf hinv id
    rw [List.foldl_cons, List.foldl_cons]
    have hwf' : wfEvents (activeStep s e) rest = true := by
      unfold wfEvents at hwf
      exact ((Bool.and_eq_true _ _).mp hwf).2
    refine ih (updateTable t e) (activeStep s e) hwf' ?_ id
    intro j
    cases e
    case createNotify ce =>
      have hfresh : ce.window ∉ s := by
        unfold wfEvents at hwf
        have h := ((Bool.and_eq_true _ _).mp hwf).1
        simpa using h
      by_cases hj : j = ce.window
      · subst hj
        simp [updateTable, spawnWindows, activeStep, spawnedEntity,
          List.countP_append, hinv ce.window, hfresh]
      · simp [updateTable, spawnWindows, activeStep, spawnedEntity,
          List.countP_append, hinv j, hj, Ne.symm hj]
    case destroyNotify de =>
      have hred : updateTable t (DomainEvent.destroyNotify de)
          = t.filter (fun w => w.window != de.window) := rfl
      have hact : activeStep s (DomainEvent.destroyNotify de)
          = s.filter (fun i => i != de.window) := rfl
      rw [hred, hact]
      simp only [List.countP_filter]
      by_cases hj : j = de.window
      · have hz : List.countP
            (fun a => a.window == j && a.window != de.window) t = 0 := by
          rw [List.countP_eq_zero]
          intro a _
          by_cases hab : a.window = de.window <;> simp [hab, hj]
        have hmem : ¬ (j ∈ s.filter fun i => i != de.window) := by
          simp [List.mem_filter, hj]
        rw [hz, if_neg hmem]
      · have hc : List.countP
            (fun a => a.window == j && a.window != de.window) t
            = List.countP (fun w => w.window == j) t := by
          refine List.countP_congr ?_
          intro a _
          by_cases hab : a.window = j
          · simp [hab, bne_iff_ne, hj, Ne.symm hj]
          · simp [hab]
        have hmem : (j ∈ s.filter fun i => i != de.window) ↔ j ∈ s := by
          simp [List.mem_filter, bne_iff_ne, hj]
        rw [hc, hinv j]
        simp [hmem]
    all_goals {
      simp only [updateTable, activeStep]
      rw [countP_map_updateEntity]
      exact hinv j
    }

/-- C9: for every well-formed finite event sequence (a window identifier is
never reused by a create while its entity exists), the entity table after
the sequence holds exactly one entity for each identifier whose create is
not yet matched by a destroy (the fold of `activeStep`), and none for every
other identifier — no leaked entities and no duplicates. -/
theorem c9_entity_table_exact :
    ∀ evts : List DomainEvent, wfEvents [] evts = true →
      ∀ id, (runTable [] evts).countP (fun w => w.window == id)
        = if id ∈ evts.foldl activeStep [] then 1 else 0 := by
  intro evts hwf id
  refine runTable_countP evts [] [] hwf ?_ id
  intro j
  simp

/-- Concrete create/create/destroy history used to witness C9. -/
def historyEvts : List DomainEvent :=
  [DomainEvent.createNotify
     { parent := 1, window := 7, region := ⟨0, 0, 800, 600⟩,
       borderWidth := 0, overrideRedirect := false },
   DomainEvent.createNotify
     { parent := 1, window := 9, region := ⟨0, 0, 1, 1⟩,
       borderWidth := 0, overrideRedirect := true },
   DomainEvent.destroyNotify { event := 1, window := 7 }]

/-- C9 witnessed: after create(7), create(9), destroy(7) the table holds
exactly one entity for 9 and none for 7. -/
theorem c9_entity_table_witness :
    wfEvents [] historyEvts = true
    ∧ (runTable [] historyEvts).countP (fun w => w.window == 7)
        = (if 7 ∈ historyEvts.foldl activeStep [] then 1 else 0)
    ∧ (runTable [] historyEvts).countP (fun w => w.window == 9)
        = (if 9 ∈ historyEvts.foldl activeStep [] then 1 else 0) :=
  ⟨by decide,
   c9_entity_table_exact historyEvts (by decide) 7,
   c9_entity_table_exact historyEvts (by decide) 9⟩

end Mwm
